import Mathlib

set_option linter.unusedVariables false

/-!
Shallow embedding of the mcp-google-calendar repository.

The API client (src/client.ts) is embedded as pure Lean functions:
the module-level mutable variable lastRequestTime (client.ts line 13)
is threaded explicitly as a Nat argument/result, the injected clock is a
Nat parameter (milliseconds, Date.now()), and the HTTP transport is an
injected function from attempt index to response.  The tool facade
(index.ts) update-event merge is embedded as a pure object builder over
ordered key/value lists, mirroring JS object insertion order.
-/

namespace GCal

/-- Milliseconds between requests (client.ts line 11): 10 req/s = 100 ms. -/
def RATE_LIMIT_DELAY_MS : Nat := 100

/-- Base URL of the remote API (client.ts line 10). -/
def BASE_URL : String := "https://www.googleapis.com/calendar/v3"

/-- An HTTP response as observed by the client: status code, the value of
the Retry-After header if present (headers.get), and the body text. -/
structure HttpResponse where
  status : Nat
  retryAfter : Option String
  body : String
deriving Repr, DecidableEq

/-- Response.ok of the fetch API: status in the range 200..299. -/
def HttpResponse.ok (r : HttpResponse) : Bool :=
  decide (200 ≤ r.status ∧ r.status ≤ 299)

/-- JS string truthiness for a string-or-absent value: undefined, null and
the empty string are falsy. -/
def jsTruthyStr : Option String → Bool
  | none => false
  | some s => !(s == "")

/-- Accumulate decimal digits, as parseInt does on the digit prefix. -/
def parseIntDigits (ds : List Char) : Nat :=
  ds.foldl (fun acc c => acc * 10 + (c.toNat - 48)) 0

/-- JS parseInt(s, 10): skip leading whitespace, read an optional sign and
then the longest prefix of decimal digits; if there are no digits the
result is NaN, modelled as none. -/
def parseIntBase10 (s : String) : Option Int :=
  let cs := s.data.dropWhile (fun c => c == ' ' || c == '\t' || c == '\n' || c == '\r')
  let signed : Int × List Char :=
    match cs with
    | c :: rest => if c == '-' then (-1, rest) else if c == '+' then (1, rest) else (1, cs)
    | [] => (1, [])
  let ds := signed.2.takeWhile Char.isDigit
  if ds.isEmpty then none
  else some (signed.1 * (parseIntDigits ds : Int))

/-- Delay actually slept by setTimeout for a JS number that may be NaN
(modelled none): NaN and negative delays are clamped to 0. -/
def jsTimeoutMs : Option Int → Nat
  | none => 0
  | some d => d.toNat

/-- Retry delay computation of client.ts line 256:
retryAfter then parseInt(retryAfter, 10) * 1000 else 1000.  The condition
is JS truthiness of the header value, so an absent header and a present
but empty header value both take the 1000 ms fallback; a nonempty value
goes through parseInt, which can be NaN (none). -/
def retryDelayMs (retryAfter : Option String) : Option Int :=
  if jsTruthyStr retryAfter then
    (parseIntBase10 (retryAfter.getD "")).map (fun n => n * 1000)
  else
    some 1000

/-- Hex digit character (uppercase), for percent-encoding. -/
def hexDigitChar (n : Nat) : Char :=
  if n < 10 then Char.ofNat (48 + n) else Char.ofNat (55 + n)

/-- UTF-8 bytes of a Unicode code point, as Nat values. -/
def utf8Bytes (n : Nat) : List Nat :=
  if n < 128 then [n]
  else if n < 2048 then [192 + n / 64, 128 + n % 64]
  else if n < 65536 then [224 + n / 4096, 128 + n / 64 % 64, 128 + n % 64]
  else [240 + n / 262144, 128 + n / 4096 % 64, 128 + n / 64 % 64, 128 + n % 64]

/-- Characters left unescaped by JS encodeURIComponent:
A-Z a-z 0-9 - _ . ! ~ * apostrophe ( ). -/
def uriUnescaped (c : Char) : Bool :=
  c.isAlpha || c.isDigit || c == '-' || c == '_' || c == '.' || c == '!' ||
  c == '~' || c == '*' || c == Char.ofNat 39 || c == '(' || c == ')'

/-- Percent-encoding of one byte: a percent sign and two hex digits. -/
def percentByte (b : Nat) : List Char :=
  [Char.ofNat 37, hexDigitChar (b / 16), hexDigitChar (b % 16)]

/-- JS encodeURIComponent: unescaped characters pass through, every other
code point is UTF-8 encoded and each byte percent-escaped. -/
def encodeURIComponent (s : String) : String :=
  String.mk (List.flatten (s.data.map (fun c =>
    if uriUnescaped c then [c]
    else List.flatten ((utf8Bytes c.toNat).map percentByte))))

/-- The outbound HTTP request assembled by request (client.ts lines
230-249): URL, ordered query parameters (url.searchParams.append), the
two headers, and the optional JSON body. -/
structure OutboundRequest where
  method : String
  url : String
  query : List (String × String)
  authHeader : String
  contentType : String
  body : Option String
deriving Repr, DecidableEq

/-- Request assembly of client.ts lines 230-249.  params is already a
list of defined string entries (Record of string to string), so the
forEach guard against undefined and null values passes every entry. -/
def buildRequest (accessToken method path : String) (body : Option String)
    (params : List (String × String)) : OutboundRequest :=
  { method := method
    url := BASE_URL ++ path
    query := params
    authHeader := "Bearer " ++ accessToken
    contentType := "application/json"
    body := body }

/-- Result value of a completed request: an empty object for 204
No Content (no body parse is attempted), or the parsed JSON body. -/
inductive ApiResult where
  | empty : ApiResult
  | parsed (body : String) : ApiResult
deriving Repr, DecidableEq

/-- Error message thrown for a non-ok response (client.ts line 263). -/
def apiErrorMessage (status : Nat) (body : String) : String :=
  "Google Calendar API error (" ++ toString status ++ "): " ++ body

/-- Tail of request (client.ts lines 261-271): a non-ok final response
throws the status-and-body error; a 204 returns the empty object without
parsing; otherwise the body is parsed as JSON. -/
def finishResponse (r : HttpResponse) : Except String ApiResult :=
  if !r.ok then Except.error (apiErrorMessage r.status r.body)
  else if r.status = 204 then Except.ok ApiResult.empty
  else Except.ok (ApiResult.parsed r.body)

/-- Rate limiter (client.ts lines 210-217), given the module-level
lastRequestTime and the current clock.  Returns the setTimeout sleep
duration (0 when no sleep happens) and the new value written to
lastRequestTime, which is Date.now() after the sleep. -/
def rateLimit (lastRequestTime now : Nat) : Nat × Nat :=
  let elapsed : Int := (now : Int) - (lastRequestTime : Int)
  if elapsed < (RATE_LIMIT_DELAY_MS : Int) then
    let sleepMs := ((RATE_LIMIT_DELAY_MS : Int) - elapsed).toNat
    (sleepMs, now + sleepMs)
  else
    (0, now)

deriving instance DecidableEq for Except

/-- Observable trace of one request call (client.ts lines 222-272):
the outbound sends with their times, the times at which lastRequestTime
was written, the rate-gate sleep, the retry sleep if a retry happened,
the value of lastRequestTime after the call, and the result. -/
structure RequestTrace where
  sends : List (Nat × OutboundRequest)
  lastWrites : List Nat
  gateWait : Nat
  retryWait : Option Nat
  lastAfter : Nat
  result : Except String ApiResult
deriving Repr, DecidableEq

/-- The request method (client.ts lines 222-272) run against an injected
transport (attempt index to response) and clock.  lastRequestTime is the
module-level variable read by rateLimit; now is Date.now() at entry.
Fetches are instantaneous: the first send happens as soon as the rate
gate opens, the retry send after the computed retry delay.  On a 429
first response the identical request is sent once more (without passing
through rateLimit again) and the second response is final. -/
def requestRun (accessToken method path : String) (body : Option String)
    (params : List (String × String)) (lastRequestTime now : Nat)
    (responses : Nat → HttpResponse) : RequestTrace :=
  let rl := rateLimit lastRequestTime now
  let t1 := rl.2
  let req := buildRequest accessToken method path body params
  let r1 := responses 0
  if r1.status = 429 then
    let w := jsTimeoutMs (retryDelayMs r1.retryAfter)
    { sends := [(t1, req), (t1 + w, req)]
      lastWrites := [t1]
      gateWait := rl.1
      retryWait := some w
      lastAfter := t1
      result := finishResponse (responses 1) }
  else
    { sends := [(t1, req)]
      lastWrites := [t1]
      gateWait := rl.1
      retryWait := none
      lastAfter := t1
      result := finishResponse r1 }

/-- The final HTTP response a request call acts on: the second response
when the first was a 429, the first otherwise. -/
def finalResponse (responses : Nat → HttpResponse) : HttpResponse :=
  if (responses 0).status = 429 then responses 1 else responses 0

/-- The client class: its only instance field is the access token
(client.ts lines 197-205). -/
structure GoogleCalendarClient where
  accessToken : String
deriving Repr, DecidableEq

/-- Constructor (client.ts lines 200-205): a falsy accessToken (absent,
null or the empty string) throws "GOOGLE_ACCESS_TOKEN is required";
otherwise the token is stored.  The constructor has no access to the
transport, so it performs no network call. -/
def GoogleCalendarClient.construct (accessToken : Option String) :
    Except String GoogleCalendarClient :=
  if !(jsTruthyStr accessToken) then Except.error "GOOGLE_ACCESS_TOKEN is required"
  else Except.ok { accessToken := accessToken.getD "" }

/-- Conditional query entry for a string argument guarded by JS
truthiness (client.ts lines 320-322, 324, 326): present iff defined and
nonempty. -/
def strEntry (key : String) (v : Option String) : List (String × String) :=
  match v with
  | some s => if s == "" then [] else [(key, s)]
  | none => []

/-- Conditional query entry for a numeric argument guarded by JS
truthiness (client.ts line 323): present iff defined and nonzero, value
rendered by toString. -/
def numEntry (key : String) (v : Option Int) : List (String × String) :=
  match v with
  | some n => if n = 0 then [] else [(key, toString n)]
  | none => []

/-- Conditional query entry for a boolean argument guarded by a
not-undefined test (client.ts line 325): present iff defined, including
false; value rendered by toString. -/
def boolEntry (key : String) (v : Option Bool) : List (String × String) :=
  match v with
  | some b => [(key, if b then "true" else "false")]
  | none => []

/-- Query parameters built by listEvents (client.ts lines 319-326), in
JS object insertion order. -/
def listEventsParams (timeMin timeMax q : Option String) (maxResults : Option Int)
    (pageToken : Option String) (singleEvents : Option Bool) (orderBy : Option String) :
    List (String × String) :=
  strEntry "timeMin" timeMin ++ strEntry "timeMax" timeMax ++ strEntry "q" q ++
  numEntry "maxResults" maxResults ++ strEntry "pageToken" pageToken ++
  boolEntry "singleEvents" singleEvents ++ strEntry "orderBy" orderBy

/-- listEvents (client.ts lines 299-329) as a request trace. -/
def GoogleCalendarClient.listEvents (c : GoogleCalendarClient) (calendarId : String)
    (timeMin timeMax q : Option String) (maxResults : Option Int)
    (pageToken : Option String) (singleEvents : Option Bool) (orderBy : Option String)
    (lastRequestTime now : Nat) (responses : Nat → HttpResponse) : RequestTrace :=
  requestRun c.accessToken "GET"
    ("/calendars/" ++ encodeURIComponent calendarId ++ "/events") none
    (listEventsParams timeMin timeMax q maxResults pageToken singleEvents orderBy)
    lastRequestTime now responses

/-- deleteEvent (client.ts lines 355-357) as a request trace: a DELETE
with no body and no query parameters. -/
def GoogleCalendarClient.deleteEvent (c : GoogleCalendarClient) (calendarId eventId : String)
    (lastRequestTime now : Nat) (responses : Nat → HttpResponse) : RequestTrace :=
  requestRun c.accessToken "DELETE"
    ("/calendars/" ++ encodeURIComponent calendarId ++ "/events/" ++
      encodeURIComponent eventId)
    none [] lastRequestTime now responses

/-- State of one concurrent client call inside the cooperative (JS event
loop) scheduler, restricted to its rate-gate phase: scheduled to begin at
a time, suspended on the rate-gate setTimeout until a wake time, or past
its send. -/
inductive TaskState where
  | started (startAt : Nat)
  | sleeping (wakeAt : Nat)
  | finished
deriving Repr, DecidableEq

/-- Time at which a pending task becomes runnable, if it is not done. -/
def TaskState.dueAt : TaskState → Option Nat
  | .started t => some t
  | .sleeping t => some t
  | .finished => none

/-- Whether a task can run at the given clock value. -/
def TaskState.runnable (clock : Nat) : TaskState → Bool
  | .started t => decide (t ≤ clock)
  | .sleeping t => decide (t ≤ clock)
  | .finished => false

/-- Event-loop state for several concurrent calls sharing the
module-level lastRequestTime: the clock, the shared timestamp, the task
list, and the times of all outbound sends issued so far. -/
structure LoopState where
  clock : Nat
  lastRequestTime : Nat
  tasks : List TaskState
  sends : List Nat
deriving Repr, DecidableEq

/-- Index of the first runnable task, modelling event-loop callback
order (earlier-registered timers fire first among those due). -/
def findRunnableIdx (clock : Nat) : List TaskState → Option Nat
  | [] => none
  | t :: rest =>
    if t.runnable clock then some 0
    else (findRunnableIdx clock rest).map (fun i => i + 1)

/-- Earliest due time among pending tasks. -/
def nextDue (tasks : List TaskState) : Option Nat :=
  tasks.foldl (fun acc t =>
    match t.dueAt with
    | some d => match acc with
      | some a => some (min a d)
      | none => some d
    | none => acc) none

/-- Run one synchronous segment of task i, exactly as client.ts executes
between awaits.  A starting task runs the rateLimit prefix (lines
211-214): it reads the shared lastRequestTime, and either suspends on
setTimeout (elapsed below the minimum interval) or writes the timestamp
and sends immediately.  A sleeping task resumes after its setTimeout:
it writes lastRequestTime (line 216) and sends; no further await
separates that write from the fetch call. -/
def execTask (s : LoopState) (i : Nat) : LoopState :=
  match s.tasks.get? i with
  | some (TaskState.started _) =>
    let rl := rateLimit s.lastRequestTime s.clock
    if rl.1 = 0 then
      { s with lastRequestTime := s.clock
               sends := s.sends ++ [s.clock]
               tasks := s.tasks.set i TaskState.finished }
    else
      { s with tasks := s.tasks.set i (TaskState.sleeping (s.clock + rl.1)) }
  | some (TaskState.sleeping _) =>
    { s with lastRequestTime := s.clock
             sends := s.sends ++ [s.clock]
             tasks := s.tasks.set i TaskState.finished }
  | _ => s

/-- One scheduler step: run the first runnable task, or if none is
runnable advance the clock to the earliest pending due time. -/
def loopStep (s : LoopState) : LoopState :=
  match findRunnableIdx s.clock s.tasks with
  | some i => execTask s i
  | none =>
    match nextDue s.tasks with
    | some t => { s with clock := max s.clock t }
    | none => s

/-- Run the cooperative scheduler for a bounded number of steps. -/
def runLoop : Nat → LoopState → LoopState
  | 0, s => s
  | n + 1, s => runLoop n (loopStep s)

/-- Conditional field of a JS object literal built by a guarded
assignment: present exactly when the argument is defined. -/
def fieldEntry {V : Type} (key : String) (v : Option V) : List (String × V) :=
  match v with
  | some x => [(key, x)]
  | none => []

/-- Event object built by the gcal_update_event handler (index.ts): an
initially empty object receiving one guarded assignment per optional
argument, each guard testing defined-ness, in source order.  Field
values are opaque to the merge, so they share one type parameter. -/
def buildUpdateEventObject {V : Type}
    (summary description location startVal endVal attendees reminders
      colorId transparency visibility : Option V) : List (String × V) :=
  fieldEntry "summary" summary ++ fieldEntry "description" description ++
  fieldEntry "location" location ++ fieldEntry "start" startVal ++
  fieldEntry "end" endVal ++ fieldEntry "attendees" attendees ++
  fieldEntry "reminders" reminders ++ fieldEntry "colorId" colorId ++
  fieldEntry "transparency" transparency ++ fieldEntry "visibility" visibility

/-- Transport stub: every attempt returns 200 OK with body "ok". -/
def mock200 : Nat → HttpResponse :=
  fun _ => { status := 200, retryAfter := none, body := "ok" }

/-- Transport stub: first attempt 429 with Retry-After 2, then 200. -/
def mockThrottle2 : Nat → HttpResponse :=
  fun i => if i = 0 then { status := 429, retryAfter := some "2", body := "rate" }
           else { status := 200, retryAfter := none, body := "ok" }

/-- Transport stub: 404 with body "notFound" on every attempt. -/
def mock404 : Nat → HttpResponse :=
  fun _ => { status := 404, retryAfter := none, body := "notFound" }

/-- Transport stub: 204 No Content on every attempt. -/
def mock204 : Nat → HttpResponse :=
  fun _ => { status := 204, retryAfter := none, body := "" }

/-- Transport stub: first attempt 429 without a Retry-After header, then 200. -/
def mock429then200 : Nat → HttpResponse :=
  fun i => if i = 0 then { status := 429, retryAfter := none, body := "rate" }
           else { status := 200, retryAfter := none, body := "ok" }

/-- Transport stub: first attempt 429 with an empty Retry-After value, then 200. -/
def mockEmptyRetryAfter : Nat → HttpResponse :=
  fun i => if i = 0 then { status := 429, retryAfter := some "", body := "rate" }
           else { status := 200, retryAfter := none, body := "ok" }

/-- Transport stub: first attempt 429 with an HTTP-date Retry-After, then 200. -/
def mockDateRetryAfter : Nat → HttpResponse :=
  fun i =>
    if i = 0 then
      { status := 429, retryAfter := some "Wed, 21 Oct 2015 07:28:00 GMT", body := "rate" }
    else { status := 200, retryAfter := none, body := "ok" }

/-- The result of a request call is the finish step applied to the final
response (the retried response when the first was a 429). -/
theorem requestRun_result (accessToken method path : String) (body : Option String)
    (params : List (String × String)) (lastRequestTime now : Nat)
    (responses : Nat → HttpResponse) :
    (requestRun accessToken method path body params lastRequestTime now responses).result
      = finishResponse (finalResponse responses) := by
  by_cases h : (responses 0).status = 429 <;> simp [requestRun, finalResponse, h]

/-- Membership in a truthiness-guarded string query entry. -/
theorem strEntry_mem (key : String) (o : Option String) (k v : String) :
    ((k, v) ∈ strEntry key o) ↔ k = key ∧ o = some v ∧ v ≠ "" := by
  cases o with
  | none => simp [strEntry]
  | some s => by_cases h : s = "" <;> simp [strEntry, h] <;> aesop

/-- Membership in a truthiness-guarded numeric query entry. -/
theorem numEntry_mem (key : String) (o : Option Int) (k v : String) :
    ((k, v) ∈ numEntry key o) ↔ ∃ n, o = some n ∧ n ≠ 0 ∧ k = key ∧ v = toString n := by
  cases o with
  | none => simp [numEntry]
  | some n =>
    by_cases h : n = 0
    · simp [numEntry, h]
    · simp [numEntry, h]

/-- Membership in a defined-ness-guarded boolean query entry. -/
theorem boolEntry_mem (key : String) (o : Option Bool) (k v : String) :
    ((k, v) ∈ boolEntry key o) ↔
      ∃ b, o = some b ∧ k = key ∧ v = (if b then "true" else "false") := by
  cases o with
  | none => simp [boolEntry]
  | some b =>
    cases b
    · simp [boolEntry]
    · simp [boolEntry]

/-- Membership in a defined-ness-guarded object field entry. -/
theorem fieldEntry_mem {V : Type} (key : String) (o : Option V) (k : String) (v : V) :
    ((k, v) ∈ fieldEntry key o) ↔ k = key ∧ o = some v := by
  cases o with
  | none => simp [fieldEntry]
  | some x =>
    simp [fieldEntry]
    exact fun _ => eq_comm

/-- Event-loop start state exhibiting the rate-gate race: the module
timestamp holds 0 (a send just happened at time 0) and two client calls
enter at 0 ms and at 1 ms. -/
def raceInit : LoopState :=
  { clock := 0, lastRequestTime := 0,
    tasks := [TaskState.started 0, TaskState.started 1], sends := [] }

/-- C1: the rate gate fails under cooperative interleaving.  With the
module timestamp at 0, two calls entering at 0 ms and 1 ms both compute
a short elapsed time, both suspend on setTimeout, and on waking both
write the timestamp and send at 100 ms: the two outbound sends are 0 ms
apart, below the 100 ms minimum interval the code's own comments and the
spec promise. -/
theorem rate_gate_interleaving_violation :
    (runLoop 6 raceInit).sends = [100, 100] ∧
    (runLoop 6 raceInit).tasks = [TaskState.finished, TaskState.finished] ∧
    100 - 100 < RATE_LIMIT_DELAY_MS := by
  decide

/-- C5: constructing the client with an absent or empty access token
fails deterministically with the configuration error, and any nonempty
token constructs successfully; the constructor never touches the
transport. -/
theorem construct_token_validation :
    GoogleCalendarClient.construct none
      = Except.error "GOOGLE_ACCESS_TOKEN is required" ∧
    GoogleCalendarClient.construct (some "")
      = Except.error "GOOGLE_ACCESS_TOKEN is required" ∧
    ∀ tok : String, tok ≠ "" →
      GoogleCalendarClient.construct (some tok) = Except.ok { accessToken := tok } := by
  refine ⟨rfl, rfl, fun tok h => ?_⟩
  simp [GoogleCalendarClient.construct, jsTruthyStr, h]

/-- Witness for C5 at the nonempty token "ya29.tok". -/
theorem construct_token_validation_witness :
    ("ya29.tok" ≠ "") ∧
    GoogleCalendarClient.construct (some "ya29.tok")
      = Except.ok { accessToken := "ya29.tok" } :=
  ⟨by decide, construct_token_validation.2.2 "ya29.tok" (by decide)⟩

/-- C7 counterexample: with a 429-then-200 transport the request issues
two sends (at 100 and 1100 ms) but the rate-gate timestamp is read and
written only once, for the first attempt; the retried attempt is issued
without reading or updating it, so the write count does not match the
attempt count the claim requires. -/
theorem retry_bypasses_rate_gate :
    (requestRun "tok" "GET" "/colors" none [] 0 0 mock429then200).sends.map Prod.fst
      = [100, 1100] ∧
    (requestRun "tok" "GET" "/colors" none [] 0 0 mock429then200).lastWrites = [100] ∧
    (requestRun "tok" "GET" "/colors" none [] 0 0 mock429then200).lastWrites.length
      ≠ (requestRun "tok" "GET" "/colors" none [] 0 0 mock429then200).sends.length := by
  decide

/-- C7 (amended): the rate-gate timestamp is read and written exactly
once per request call, before the first attempt; the value written is
the moment of that send (entry time plus the gate wait), not the moment
the elapsed interval was computed; the 429 retry attempt neither reads
nor updates it. -/
theorem rate_gate_timestamp_once_per_call (accessToken method path : String)
    (body : Option String) (params : List (String × String))
    (lastRequestTime now : Nat) (responses : Nat → HttpResponse) :
    (requestRun accessToken method path body params lastRequestTime now responses).lastWrites
      = [(rateLimit lastRequestTime now).2] ∧
    ((requestRun accessToken method path body params lastRequestTime now
        responses).sends.map Prod.fst).take 1
      = (requestRun accessToken method path body params lastRequestTime now
          responses).lastWrites ∧
    (requestRun accessToken method path body params lastRequestTime now responses).lastAfter
      = (rateLimit lastRequestTime now).2 ∧
    (rateLimit lastRequestTime now).2 = now + (rateLimit lastRequestTime now).1 := by
  refine ⟨?_, ?_, ?_, ?_⟩
  · by_cases h : (responses 0).status = 429 <;> simp [requestRun, h]
  · by_cases h : (responses 0).status = 429 <;> simp [requestRun, h]
  · by_cases h : (responses 0).status = 429 <;> simp [requestRun, h]
  · simp only [rateLimit]
    split <;> simp

/-- C10 counterexample: a 429 response carrying a present Retry-After
header with an empty value does not parse (parseInt of the empty string
is NaN), yet the code takes the 1000 ms fallback rather than the
no-effective-wait path, because the fallback guard is JS truthiness of
the header value, not absence of the header. -/
theorem retry_after_empty_value_fallback :
    parseIntBase10 "" = none ∧
    retryDelayMs (some "") = some 1000 ∧
    (some "" ≠ (none : Option String)) ∧
    (requestRun "tok" "GET" "/colors" none [] 0 0 mockEmptyRetryAfter).retryWait
      = some 1000 := by
  decide

/-- C10 (amended): for a throttled response whose Retry-After value is
nonempty, the delay is parseInt of the value times 1000, which is NaN
for a non-numeric value such as an HTTP-date, and the single retry is
then issued with no effective wait; the fixed 1000 ms fallback applies
exactly when the header is absent or its value is empty (falsy). -/
theorem nonnumeric_retry_after_no_wait :
    (∀ v : String, v ≠ "" →
      retryDelayMs (some v) = (parseIntBase10 v).map (fun n => n * 1000)) ∧
    retryDelayMs none = some 1000 ∧
    retryDelayMs (some "") = some 1000 ∧
    jsTimeoutMs none = 0 ∧
    parseIntBase10 "Wed, 21 Oct 2015 07:28:00 GMT" = none ∧
    (requestRun "tok" "GET" "/colors" none [] 0 0 mockDateRetryAfter).retryWait = some 0 ∧
    (requestRun "tok" "GET" "/colors" none [] 0 0 mockDateRetryAfter).sends.map Prod.fst
      = [100, 100] := by
  refine ⟨fun v h => ?_, by decide, by decide, rfl, by decide, by decide, by decide⟩
  simp [retryDelayMs, jsTruthyStr, h]

/-- Witness for C10 at the HTTP-date header value. -/
theorem nonnumeric_retry_after_no_wait_witness :
    ("Wed, 21 Oct 2015 07:28:00 GMT" ≠ "") ∧
    retryDelayMs (some "Wed, 21 Oct 2015 07:28:00 GMT")
      = (parseIntBase10 "Wed, 21 Oct 2015 07:28:00 GMT").map (fun n => n * 1000) :=
  ⟨by decide,
    nonnumeric_retry_after_no_wait.1 "Wed, 21 Oct 2015 07:28:00 GMT" (by decide)⟩

/-- C2: on a 429 first response the client sleeps once and reissues the
identical request exactly once: the trace has exactly two sends of the
same assembled request, the wait is 1000 ms when no Retry-After header
is present and n * 1000 ms when the header parses as the integer n, the
final outcome is determined by the second response alone, and a 429 on
the retried attempt terminates as the status-and-body failure with no
third send. -/
theorem throttle_single_retry (accessToken method path : String)
    (body : Option String) (params : List (String × String))
    (lastRequestTime now : Nat) (responses : Nat → HttpResponse)
    (h429 : (responses 0).status = 429) :
    ∃ t1 req w,
      (requestRun accessToken method path body params lastRequestTime now responses).sends
        = [(t1, req), (t1 + w, req)] ∧
      ((responses 0).retryAfter = none → w = 1000) ∧
      (∀ (v : String) (n : Nat), (responses 0).retryAfter = some v →
        parseIntBase10 v = some (n : Int) → w = n * 1000) ∧
      (requestRun accessToken method path body params lastRequestTime now responses).result
        = finishResponse (responses 1) ∧
      ((responses 1).status = 429 →
        (requestRun accessToken method path body params lastRequestTime now responses).result
          = Except.error (apiErrorMessage 429 (responses 1).body)) := by
  refine ⟨(rateLimit lastRequestTime now).2,
    buildRequest accessToken method path body params,
    jsTimeoutMs (retryDelayMs (responses 0).retryAfter), ?_, ?_, ?_, ?_, ?_⟩
  · simp [requestRun, h429]
  · intro h
    simp [retryDelayMs, jsTruthyStr, h, jsTimeoutMs]
  · intro v n hv hp
    have hne : v ≠ "" := by
      intro e
      rw [e] at hp
      have h0 : parseIntBase10 "" = none := by rfl
      rw [h0] at hp
      exact Option.noConfusion hp
    have hd : retryDelayMs (some v) = some ((n : Int) * 1000) := by
      simp [retryDelayMs, jsTruthyStr, hne, hp]
    rw [hv, hd]
    show ((n : Int) * 1000).toNat = n * 1000
    omega
  · simp [requestRun, h429]
  · intro h2
    rw [requestRun_result]
    simp [finalResponse, h429, finishResponse, HttpResponse.ok, h2, apiErrorMessage]

/-- Witness for C2: a 429 carrying Retry-After 2 followed by a 200, at
which the wait is concretely 2000 ms before the single retry. -/
theorem throttle_single_retry_witness :
    ((mockThrottle2 0).status = 429) ∧
    ((requestRun "tok" "GET" "/colors" none [] 0 0 mockThrottle2).retryWait = some 2000) ∧
    ∃ t1 req w,
      (requestRun "tok" "GET" "/colors" none [] 0 0 mockThrottle2).sends
        = [(t1, req), (t1 + w, req)] ∧
      ((mockThrottle2 0).retryAfter = none → w = 1000) ∧
      (∀ (v : String) (n : Nat), (mockThrottle2 0).retryAfter = some v →
        parseIntBase10 v = some (n : Int) → w = n * 1000) ∧
      (requestRun "tok" "GET" "/colors" none [] 0 0 mockThrottle2).result
        = finishResponse (mockThrottle2 1) ∧
      ((mockThrottle2 1).status = 429 →
        (requestRun "tok" "GET" "/colors" none [] 0 0 mockThrottle2).result
          = Except.error (apiErrorMessage 429 (mockThrottle2 1).body)) :=
  ⟨by decide, by decide,
    throttle_single_retry "tok" "GET" "/colors" none [] 0 0 mockThrottle2 (by decide)⟩

/-- C3: any non-ok final response (the first response, or the retried
one after a 429) makes the call fail with the error whose message holds
the decimal status code and the raw body text verbatim; the same formula
applies to every non-success status, with no interpretation. -/
theorem error_status_and_body (accessToken method path : String)
    (body : Option String) (params : List (String × String))
    (lastRequestTime now : Nat) (responses : Nat → HttpResponse)
    (hfail : (finalResponse responses).ok = false) :
    (requestRun accessToken method path body params lastRequestTime now responses).result
      = Except.error ("Google Calendar API error ("
          ++ toString (finalResponse responses).status ++ "): "
          ++ (finalResponse responses).body) := by
  rw [requestRun_result]
  simp [finishResponse, hfail, apiErrorMessage]

/-- Witness for C3 at a 404 with body "notFound". -/
theorem error_status_and_body_witness :
    (finalResponse mock404).ok = false ∧
    (requestRun "tok" "GET" "/calendars/nope" none [] 0 0 mock404).result
      = Except.error "Google Calendar API error (404): notFound" :=
  ⟨by decide, by
    have h := error_status_and_body "tok" "GET" "/calendars/nope" none [] 0 0 mock404
      (by decide)
    exact h.trans (by decide)⟩

/-- C4: a 204 No Content final response yields the empty success result
with no body parse; in particular deleteEvent against a 204 mock
resolves without error and without a parsed body (the witness applies
this at the deleteEvent request). -/
theorem no_content_empty_success (accessToken method path : String)
    (body : Option String) (params : List (String × String))
    (lastRequestTime now : Nat) (responses : Nat → HttpResponse)
    (h204 : (finalResponse responses).status = 204) :
    (requestRun accessToken method path body params lastRequestTime now responses).result
      = Except.ok ApiResult.empty := by
  rw [requestRun_result]
  simp [finishResponse, HttpResponse.ok, h204]

/-- Witness for C4: deleteEvent of event "abc" on calendar "primary"
against a transport answering 204. -/
theorem no_content_empty_success_witness :
    (finalResponse mock204).status = 204 ∧
    (GoogleCalendarClient.deleteEvent { accessToken := "tok" } "primary" "abc" 0 0
        mock204).result
      = Except.ok ApiResult.empty :=
  ⟨rfl, no_content_empty_success "tok" "DELETE"
    ("/calendars/" ++ encodeURIComponent "primary" ++ "/events/" ++
      encodeURIComponent "abc") none [] 0 0 mock204 rfl⟩

/-- C6 counterexample: maxResults := some 0 is a defined (supplied)
argument, yet the built query contains no parameter at all, because the
guard is JS truthiness and 0 is falsy; so it is not the case that
exactly the defined arguments appear. -/
theorem listEvents_zero_maxResults_dropped :
    listEventsParams none none none (some 0) none none none = [] ∧
    (some (0 : Int)) ≠ (none : Option Int) := by
  decide

/-- C6 (amended): a string argument of listEvents appears in the query
iff it is supplied and nonempty, maxResults iff supplied and nonzero
(rendered by toString), and singleEvents iff supplied at all (including
false); no other key ever appears; and the scenario holds: listEvents
on calendar "primary" with only timeMin supplied sends a request whose
query is exactly the single timeMin parameter. -/
theorem listEvents_query_param_presence :
    (∀ (timeMin timeMax q : Option String) (maxResults : Option Int)
        (pageToken : Option String) (singleEvents : Option Bool)
        (orderBy : Option String),
      (∀ v, ("timeMin", v) ∈ listEventsParams timeMin timeMax q maxResults pageToken
          singleEvents orderBy ↔ timeMin = some v ∧ v ≠ "") ∧
      (∀ v, ("timeMax", v) ∈ listEventsParams timeMin timeMax q maxResults pageToken
          singleEvents orderBy ↔ timeMax = some v ∧ v ≠ "") ∧
      (∀ v, ("q", v) ∈ listEventsParams timeMin timeMax q maxResults pageToken
          singleEvents orderBy ↔ q = some v ∧ v ≠ "") ∧
      (∀ v, ("maxResults", v) ∈ listEventsParams timeMin timeMax q maxResults pageToken
          singleEvents orderBy ↔ ∃ n, maxResults = some n ∧ n ≠ 0 ∧ v = toString n) ∧
      (∀ v, ("pageToken", v) ∈ listEventsParams timeMin timeMax q maxResults pageToken
          singleEvents orderBy ↔ pageToken = some v ∧ v ≠ "") ∧
      (∀ v, ("singleEvents", v) ∈ listEventsParams timeMin timeMax q maxResults pageToken
          singleEvents orderBy ↔
          ∃ b, singleEvents = some b ∧ v = (if b then "true" else "false")) ∧
      (∀ v, ("orderBy", v) ∈ listEventsParams timeMin timeMax q maxResults pageToken
          singleEvents orderBy ↔ orderBy = some v ∧ v ≠ "") ∧
      (∀ kv ∈ listEventsParams timeMin timeMax q maxResults pageToken singleEvents
          orderBy, kv.1 ∈ ["timeMin", "timeMax", "q", "maxResults", "pageToken",
            "singleEvents", "orderBy"])) ∧
    ((GoogleCalendarClient.listEvents { accessToken := "tok" } "primary"
        (some "2024-01-01T00:00:00Z") none none none none none none 0 0 mock200).sends.map
        (fun s => s.2.query)) = [[("timeMin", "2024-01-01T00:00:00Z")]] := by
  refine ⟨fun timeMin timeMax q maxResults pageToken singleEvents orderBy =>
    ⟨?_, ?_, ?_, ?_, ?_, ?_, ?_, ?_⟩, by decide⟩
  · intro v
    simp [listEventsParams, strEntry_mem, numEntry_mem, boolEntry_mem]
  · intro v
    simp [listEventsParams, strEntry_mem, numEntry_mem, boolEntry_mem]
  · intro v
    simp [listEventsParams, strEntry_mem, numEntry_mem, boolEntry_mem]
  · intro v
    simp [listEventsParams, strEntry_mem, numEntry_mem, boolEntry_mem]
  · intro v
    simp [listEventsParams, strEntry_mem, numEntry_mem, boolEntry_mem]
  · intro v
    simp [listEventsParams, strEntry_mem, numEntry_mem, boolEntry_mem]
  · intro v
    simp [listEventsParams, strEntry_mem, numEntry_mem, boolEntry_mem]
  · rintro ⟨k, v⟩ hkv
    simp only [listEventsParams, List.mem_append, strEntry_mem, numEntry_mem,
      boolEntry_mem] at hkv
    aesop

/-- Witness for C6: with only timeMin supplied, the timeMin pair is a
member of the built query. -/
theorem listEvents_query_param_presence_witness :
    ("timeMin", "2024-01-01T00:00:00Z")
      ∈ listEventsParams (some "2024-01-01T00:00:00Z") none none none none none none :=
  ((listEvents_query_param_presence.1 (some "2024-01-01T00:00:00Z") none none none none
      none none).1 "2024-01-01T00:00:00Z").mpr ⟨rfl, by decide⟩

/-- C8 counterexample: the rate-gate timestamp is module level
(client.ts line 13).  A request by a client with token "tokA" changes
the state read by a distinct client with token "tokB": B entering 50 ms
after A's send waits 50 ms and sends at 200, while with A's operation
absent B would wait 0 ms and send at 150.  An operation on one instance
therefore changes the other instance's rate-gate behaviour. -/
theorem clients_share_rate_gate :
    (requestRun "tokA" "GET" "/colors" none [] 0 0 mock200).lastAfter = 100 ∧
    (requestRun "tokB" "GET" "/colors" none []
        (requestRun "tokA" "GET" "/colors" none [] 0 0 mock200).lastAfter 150
        mock200).gateWait = 50 ∧
    ((requestRun "tokB" "GET" "/colors" none []
        (requestRun "tokA" "GET" "/colors" none [] 0 0 mock200).lastAfter 150
        mock200).sends.map Prod.fst) = [200] ∧
    (requestRun "tokB" "GET" "/colors" none [] 0 150 mock200).gateWait = 0 ∧
    ((requestRun "tokB" "GET" "/colors" none [] 0 150 mock200).sends.map Prod.fst)
      = [150] := by
  decide

/-- C8 (amended): lastRequestTime is one module-level cell shared by
every client instance in the process: after any request by one client,
a request by any other client entering within the minimum interval of
the recorded send is delayed until exactly that send plus 100 ms, so the
instances share a single rate budget. -/
theorem shared_rate_gate_interference (tokA tokB methodA methodB pathA pathB : String)
    (bodyA bodyB : Option String) (paramsA paramsB : List (String × String))
    (last0 now0 now2 : Nat) (respA respB : Nat → HttpResponse)
    (hlo : (requestRun tokA methodA pathA bodyA paramsA last0 now0 respA).lastAfter ≤ now2)
    (hhi : now2 < (requestRun tokA methodA pathA bodyA paramsA last0 now0
        respA).lastAfter + RATE_LIMIT_DELAY_MS) :
    0 < (requestRun tokB methodB pathB bodyB paramsB
        (requestRun tokA methodA pathA bodyA paramsA last0 now0 respA).lastAfter now2
        respB).gateWait ∧
    ((requestRun tokB methodB pathB bodyB paramsB
        (requestRun tokA methodA pathA bodyA paramsA last0 now0 respA).lastAfter now2
        respB).sends.map Prod.fst).head?
      = some ((requestRun tokA methodA pathA bodyA paramsA last0 now0 respA).lastAfter
          + RATE_LIMIT_DELAY_MS) := by
  have hgate : ∀ (tok method path : String) (body : Option String)
      (params : List (String × String)) (l n : Nat) (resp : Nat → HttpResponse),
      (requestRun tok method path body params l n resp).gateWait = (rateLimit l n).1 ∧
      ((requestRun tok method path body params l n resp).sends.map Prod.fst).head?
        = some (rateLimit l n).2 := by
    intro tok method path body params l n resp
    by_cases h : (resp 0).status = 429 <;> simp [requestRun, h]
  obtain ⟨hg, hs⟩ := hgate tokB methodB pathB bodyB paramsB
    (requestRun tokA methodA pathA bodyA paramsA last0 now0 respA).lastAfter now2 respB
  rw [hg, hs]
  constructor
  · simp only [rateLimit, RATE_LIMIT_DELAY_MS] at hhi ⊢
    split
    · omega
    · omega
  · simp only [rateLimit, RATE_LIMIT_DELAY_MS] at hhi hlo ⊢
    split
    · simp only [Option.some.injEq]
      omega
    · omega

/-- Witness for C8: A sends at 100; B entering the shared gate at 150 is
delayed to exactly 200. -/
theorem shared_rate_gate_interference_witness :
    ((requestRun "tokA" "GET" "/colors" none [] 0 0 mock200).lastAfter ≤ 150) ∧
    (0 < (requestRun "tokB" "GET" "/colors" none []
        (requestRun "tokA" "GET" "/colors" none [] 0 0 mock200).lastAfter 150
        mock200).gateWait ∧
      ((requestRun "tokB" "GET" "/colors" none []
          (requestRun "tokA" "GET" "/colors" none [] 0 0 mock200).lastAfter 150
          mock200).sends.map Prod.fst).head?
        = some ((requestRun "tokA" "GET" "/colors" none [] 0 0 mock200).lastAfter
            + RATE_LIMIT_DELAY_MS)) :=
  ⟨by decide,
    shared_rate_gate_interference "tokA" "tokB" "GET" "GET" "/colors" "/colors"
      none none [] [] 0 0 150 mock200 mock200 (by decide) (by decide)⟩

/-- C9: the event object the gcal_update_event handler passes to
updateEvent holds exactly the caller-specified fields: a field key is
present with value v iff the corresponding argument is some v, and no
key outside the ten declared update fields ever appears. -/
theorem update_event_object_exact (V : Type)
    (summary description location startVal endVal attendees reminders colorId
      transparency visibility : Option V) :
    (∀ v, ("summary", v) ∈ buildUpdateEventObject summary description location startVal
        endVal attendees reminders colorId transparency visibility ↔ summary = some v) ∧
    (∀ v, ("description", v) ∈ buildUpdateEventObject summary description location
        startVal endVal attendees reminders colorId transparency visibility ↔
        description = some v) ∧
    (∀ v, ("location", v) ∈ buildUpdateEventObject summary description location startVal
        endVal attendees reminders colorId transparency visibility ↔ location = some v) ∧
    (∀ v, ("start", v) ∈ buildUpdateEventObject summary description location startVal
        endVal attendees reminders colorId transparency visibility ↔ startVal = some v) ∧
    (∀ v, ("end", v) ∈ buildUpdateEventObject summary description location startVal
        endVal attendees reminders colorId transparency visibility ↔ endVal = some v) ∧
    (∀ v, ("attendees", v) ∈ buildUpdateEventObject summary description location
        startVal endVal attendees reminders colorId transparency visibility ↔
        attendees = some v) ∧
    (∀ v, ("reminders", v) ∈ buildUpdateEventObject summary description location
        startVal endVal attendees reminders colorId transparency visibility ↔
        reminders = some v) ∧
    (∀ v, ("colorId", v) ∈ buildUpdateEventObject summary description location startVal
        endVal attendees reminders colorId transparency visibility ↔ colorId = some v) ∧
    (∀ v, ("transparency", v) ∈ buildUpdateEventObject summary description location
        startVal endVal attendees reminders colorId transparency visibility ↔
        transparency = some v) ∧
    (∀ v, ("visibility", v) ∈ buildUpdateEventObject summary description location
        startVal endVal attendees reminders colorId transparency visibility ↔
        visibility = some v) ∧
    (∀ kv ∈ buildUpdateEventObject summary description location startVal endVal
        attendees reminders colorId transparency visibility,
      kv.1 ∈ ["summary", "description", "location", "start", "end", "attendees",
        "reminders", "colorId", "transparency", "visibility"]) := by
  refine ⟨?_, ?_, ?_, ?_, ?_, ?_, ?_, ?_, ?_, ?_, ?_⟩
  · intro v
    simp [buildUpdateEventObject, fieldEntry_mem]
  · intro v
    simp [buildUpdateEventObject, fieldEntry_mem]
  · intro v
    simp [buildUpdateEventObject, fieldEntry_mem]
  · intro v
    simp [buildUpdateEventObject, fieldEntry_mem]
  · intro v
    simp [buildUpdateEventObject, fieldEntry_mem]
  · intro v
    simp [buildUpdateEventObject, fieldEntry_mem]
  · intro v
    simp [buildUpdateEventObject, fieldEntry_mem]
  · intro v
    simp [buildUpdateEventObject, fieldEntry_mem]
  · intro v
    simp [buildUpdateEventObject, fieldEntry_mem]
  · intro v
    simp [buildUpdateEventObject, fieldEntry_mem]
  · rintro ⟨k, v⟩ hkv
    simp only [buildUpdateEventObject, List.mem_append, fieldEntry_mem] at hkv
    aesop

/-- Witness for C9: with only the summary supplied, the summary pair is
in the built object. -/
theorem update_event_object_exact_witness :
    ("summary", "Standup") ∈ buildUpdateEventObject (some "Standup") none none none none
      none none none none none :=
  ((update_event_object_exact String (some "Standup") none none none none none none
      none none none).1 "Standup").mpr rfl

end GCal
